import Mathlib

/-!
Shallow embedding of the Image Analysis Controller from `src/src/App.tsx`.

The component owns four pieces of state (`image`, `analysis`, `loading`,
`error`) and three operations: `handleImageUpload` (called `selectImage` in
the design document), `analyzeImage` (called `submitForAnalysis`), and
`reset`.  The remote Gemini call is modelled by an explicit
`GatewayOutcome` argument: `success text` carries the optional `.text`
field of the response object, `failure` stands for any thrown error.
-/

/-- The Session state: the four `useState` hooks of `App`
(`image`, `analysis`, `loading`, `error` at lines 18-21 of App.tsx). -/
structure Session where
  image : Option String
  analysis : String
  loading : Bool
  error : Option String
deriving DecidableEq, Repr

/-- Initial state: `useState(null)`, `useState('')`, `useState(false)`,
`useState(null)`. -/
def initialSession : Session :=
  { image := none, analysis := "", loading := false, error := none }

/-- The fixed user-facing failure message set in the `catch` branch. -/
def failureMessage : String :=
  "خطایی در تحلیل تصویر رخ داد. لطفاً دوباره تلاش کنید."

/-- The fixed fallback phrase used when `response.text` is falsy. -/
def fallbackPhrase : String :=
  "متأسفانه توضیحی دریافت نشد."

/-- The fixed natural-language instruction sent as the text part. -/
def instructionText : String :=
  "لطفاً این تصویر را با دقت بسیار زیاد و جزئیات کامل به زبان فارسی توضیح دهید. توضیحات باید شامل اشیاء، رنگ‌ها، فضا و هر نکته مهم دیگری باشد که در تصویر دیده می‌شود. لحن شما محترمانه و دقیق باشد."

/-- The fixed model identifier passed to `generateContent`. -/
def modelId : String := "gemini-3-flash-preview"

/-- The hardcoded MIME declaration of the binary part. -/
def jpegMime : String := "image/jpeg"

/-- Outcome of the `ai.models.generateContent` call: a resolved response
whose `.text` field is a possibly-absent string, or a thrown error. -/
inductive GatewayOutcome where
  | success (text : Option String)
  | failure
deriving DecidableEq

/-- The request handed to the Inference Gateway, as built at lines 48-63
of App.tsx: model identifier, declared MIME type, the base64 data part
(`image.split(',')[1]`, which in JS may be `undefined`, hence `Option`),
and the instruction text. -/
structure GenRequest where
  model : String
  mimeType : String
  data : Option String
  text : String
deriving DecidableEq

/-- JavaScript `string.split(',')` on the character list: splits at every
comma; the empty string yields `[""]`. Structural recursion so that the
kernel can evaluate it on concrete inputs. -/
def splitComma : List Char → List (List Char)
  | [] => [[]]
  | c :: cs =>
    if c = ',' then
      [] :: splitComma cs
    else
      match splitComma cs with
      | [] => [[c]]
      | h :: t => (c :: h) :: t

/-- JavaScript `s.split(',')` as a function on Lean strings. -/
def jsSplit (s : String) : List String :=
  (splitComma s.data).map List.asString

/-- `image.split(',')[1]` (App.tsx line 46): `base64Data`. -/
def base64Data (img : String) : Option String :=
  (jsSplit img)[1]?

/-- The single request built inside the `try` block (lines 48-63). -/
def buildRequest (img : String) : GenRequest :=
  { model := modelId
    mimeType := jpegMime
    data := base64Data img
    text := instructionText }

/-- `response.text || fallback`: JS `||` takes the fallback when the
left side is `undefined` or the empty string. -/
def textOrElse (text : Option String) (fallback : String) : String :=
  match text with
  | some t => if t = "" then fallback else t
  | none => fallback

/-- The synchronous prefix of `analyzeImage` once the `if (!image)` guard
has passed: `setLoading(true); setError(null); setAnalysis('')`
(lines 40-42). -/
def analyzeStart (s : Session) : Session :=
  { s with loading := true, error := none, analysis := "" }

/-- Resolution of the in-flight call: the `try`/`catch` branches
(lines 65 and 68) followed by the `finally` block `setLoading(false)`
(line 70). -/
def analyzeResolve (s : Session) (o : GatewayOutcome) : Session :=
  let afterTry :=
    match o with
    | .success text => { s with analysis := textOrElse text fallbackPhrase }
    | .failure => { s with error := some failureMessage }
  { afterTry with loading := false }

/-- One whole `analyzeImage` invocation (lines 37-72), run to completion
with gateway outcome `o`: returns the final Session and the list of
requests issued.  `if (!image) return;` gives the no-op branch. -/
def analyzeImage (s : Session) (o : GatewayOutcome) : Session × List GenRequest :=
  match s.image with
  | none => (s, [])
  | some img => (analyzeResolve (analyzeStart s) o, [buildRequest img])

/-- The `reader.onloadend` callback of `handleImageUpload` (lines 28-32):
`setImage(reader.result); setAnalysis(''); setError(null)`.  On a failed
read `reader.result` is `null`, hence the `Option` argument. -/
def onFileRead (s : Session) (result : Option String) : Session :=
  { s with image := result, analysis := "", error := none }

/-- `reset` (lines 74-79): clears `image`, `analysis`, `error`; the
file-input DOM reset has no Session effect. -/
def reset (s : Session) : Session :=
  { s with image := none, analysis := "", error := none }

/-!
Event-loop model.  The browser runs the controller single-threaded: user
events (`handleImageUpload` completions, `analyzeImage` invocations,
`reset` clicks) and the resolution of the in-flight gateway call
interleave as atomic state updates.  Following the design document, at
most one gateway request is in flight per Session; the Boolean component
records whether one is.
-/

/-- One atomic step of the event loop on (Session, request-in-flight). -/
inductive Step : Session × Bool → Session × Bool → Prop where
  | select (s : Session) (p : Bool) (r : Option String) :
      Step (s, p) (onFileRead s r, p)
  | doReset (s : Session) (p : Bool) :
      Step (s, p) (reset s, p)
  | startAnalyze (s : Session) (img : String) (h : s.image = some img) :
      Step (s, false) (analyzeStart s, true)
  | skipAnalyze (s : Session) (p : Bool) (h : s.image = none) :
      Step (s, p) (s, p)
  | resolveAnalyze (s : Session) (o : GatewayOutcome) :
      Step (s, true) (analyzeResolve s o, false)

/-- A Session (together with its in-flight flag) reachable from the
freshly mounted component. -/
def Reachable (sp : Session × Bool) : Prop :=
  Relation.ReflTransGen Step (initialSession, false) sp

/-- At most one of the loading flag, a non-empty analysis, and a set
error is present. -/
def atMostOne (s : Session) : Prop :=
  ¬(s.loading = true ∧ s.analysis ≠ "") ∧
  ¬(s.loading = true ∧ s.error ≠ none) ∧
  ¬(s.analysis ≠ "" ∧ s.error ≠ none)

lemma textOrElse_fallback_ne_empty (t : Option String) :
    textOrElse t fallbackPhrase ≠ "" := by
  have hfb : fallbackPhrase ≠ "" := by decide
  cases t with
  | none => exact hfb
  | some t' =>
    by_cases h : t' = "" <;> simp [textOrElse, h, hfb]

lemma reachable_inv (sp : Session × Bool) (h : Reachable sp) :
    atMostOne sp.1 ∧ (sp.2 = true → sp.1.analysis = "" ∧ sp.1.error = none) := by
  induction h with
  | refl => simp [initialSession, atMostOne]
  | tail _ hstep ih =>
    cases hstep with
    | select s p r => simp [onFileRead, atMostOne]
    | doReset s p => simp [reset, atMostOne]
    | startAnalyze s img h => simp [analyzeStart, atMostOne]
    | skipAnalyze s p h => exact ih
    | resolveAnalyze s o =>
      obtain ⟨hempty, herr⟩ := ih.2 rfl
      cases o with
      | success text =>
        exact ⟨⟨fun h => Bool.false_ne_true h.1, fun h => Bool.false_ne_true h.1,
                fun h => h.2 herr⟩, fun h => absurd h Bool.false_ne_true⟩
      | failure =>
        exact ⟨⟨fun h => Bool.false_ne_true h.1, fun h => Bool.false_ne_true h.1,
                fun h => h.1 hempty⟩, fun h => absurd h Bool.false_ne_true⟩

/-- Modelled from the spec's words for claim comparison: the part of the
image string after its first comma (its "encoding-scheme" part removed). -/
def specAfterFirstComma : List Char → List Char
  | [] => []
  | c :: cs => if c = ',' then cs else specAfterFirstComma cs

/-- The image string with everything up to and including the first comma
removed, as the design document describes the payload. -/
def specStrippedImage (img : String) : String :=
  (specAfterFirstComma img.data).asString

lemma splitComma_of_not_mem (cs : List Char) (h : ',' ∉ cs) :
    splitComma cs = [cs] := by
  induction cs with
  | nil => rfl
  | cons c cs ih =>
    have hc : ¬ c = ',' := fun hc => h (hc ▸ List.mem_cons_self c cs)
    have hcs : ',' ∉ cs := fun hm => h (List.mem_cons_of_mem c hm)
    simp [splitComma, hc, ih hcs]

lemma count_comma_zero_iff (cs : List Char) : cs.count ',' = 0 ↔ ',' ∉ cs :=
  List.count_eq_zero

lemma splitComma_cons_of_ne (c : Char) (cs : List Char) (hc : ¬ c = ',')
    (hd : List Char) (tl : List (List Char)) (heq : splitComma cs = hd :: tl) :
    splitComma (c :: cs) = (c :: hd) :: tl := by
  simp [splitComma, hc, heq]

lemma splitComma_snd_of_count_one (cs : List Char) (h : cs.count ',' = 1) :
    (splitComma cs)[1]? = some (specAfterFirstComma cs) := by
  induction cs with
  | nil => simp at h
  | cons c cs ih =>
    by_cases hc : c = ','
    · subst hc
      rw [List.count_cons_self] at h
      have h0 : cs.count ',' = 0 := by omega
      have hmem : ',' ∉ cs := (count_comma_zero_iff cs).mp h0
      simp [splitComma, splitComma_of_not_mem cs hmem, specAfterFirstComma]
    · rw [List.count_cons_of_ne (fun he => hc he.symm)] at h
      have h1 := ih h
      have hne : splitComma cs ≠ [] := by
        intro hnil
        rw [hnil] at h1
        simp at h1
      obtain ⟨hd, tl, heq⟩ := List.exists_cons_of_ne_nil hne
      rw [heq] at h1
      rw [splitComma_cons_of_ne c cs hc hd tl heq]
      simp only [specAfterFirstComma, if_neg hc]
      simpa using h1

/-! Concrete values used by the witnesses. -/

/-- A sample data URI as produced by `FileReader.readAsDataURL`. -/
def sampleImage : String := "data:image/jpeg;base64,AAAA"

/-- A Session that has an image selected and nothing else. -/
def sessionWithImage : Session :=
  { image := some sampleImage, analysis := "", loading := false, error := none }

/-- The Pending Session obtained by starting a submission from
`sessionWithImage`. -/
def pendingSession : Session := analyzeStart sessionWithImage

/-! The claims. -/

/-- C1: with no `image` set, `analyzeImage` leaves the Session unchanged
and issues no gateway request. -/
theorem submit_without_image_noop (s : Session) (h : s.image = none)
    (o : GatewayOutcome) : analyzeImage s o = (s, []) := by
  simp [analyzeImage, h]

theorem submit_without_image_noop_witness :
    initialSession.image = none ∧
    analyzeImage initialSession .failure = (initialSession, []) :=
  ⟨rfl, submit_without_image_noop initialSession rfl .failure⟩

/-- C2: when the gateway call throws, the resolved Session has `error`
equal to the fixed failure message, empty `analysis`, and `loading`
false. -/
theorem failed_submission_state (s : Session) (img : String)
    (h : s.image = some img) :
    (analyzeImage s .failure).1.error = some failureMessage ∧
    (analyzeImage s .failure).1.analysis = "" ∧
    (analyzeImage s .failure).1.loading = false := by
  simp [analyzeImage, h, analyzeResolve, analyzeStart]

theorem failed_submission_state_witness :
    sessionWithImage.image = some sampleImage ∧
    ((analyzeImage sessionWithImage .failure).1.error = some failureMessage ∧
     (analyzeImage sessionWithImage .failure).1.analysis = "" ∧
     (analyzeImage sessionWithImage .failure).1.loading = false) :=
  ⟨rfl, failed_submission_state sessionWithImage sampleImage rfl⟩

/-- C3: with `image` set, whatever the gateway outcome, the resolved
Session has `loading = false`: the `finally` step runs in all cases. -/
theorem submission_clears_loading (s : Session) (img : String)
    (h : s.image = some img) (o : GatewayOutcome) :
    (analyzeImage s o).1.loading = false := by
  cases o <;> simp [analyzeImage, h, analyzeResolve, analyzeStart]

theorem submission_clears_loading_witness :
    sessionWithImage.image = some sampleImage ∧
    (analyzeImage sessionWithImage (.success (some "ok"))).1.loading = false :=
  ⟨rfl, submission_clears_loading sessionWithImage sampleImage rfl
    (.success (some "ok"))⟩

/-- C4: resolving a successful submission from any reachable Pending
state yields `loading = false` with a non-empty `analysis` and no
`error` (exactly one of the two result fields), and every reachable
Session satisfies the at-most-one-of invariant. -/
theorem session_invariant :
    (∀ s : Session, Reachable (s, true) → ∀ text : Option String,
        (analyzeResolve s (.success text)).loading = false ∧
        (analyzeResolve s (.success text)).analysis ≠ "" ∧
        (analyzeResolve s (.success text)).error = none) ∧
    (∀ sp : Session × Bool, Reachable sp → atMostOne sp.1) := by
  constructor
  · intro s hreach text
    obtain ⟨_, hflight⟩ := reachable_inv (s, true) hreach
    obtain ⟨_, herr⟩ := hflight rfl
    exact ⟨rfl, textOrElse_fallback_ne_empty text, herr⟩
  · intro sp hreach
    exact (reachable_inv sp hreach).1

theorem session_invariant_witness :
    (analyzeResolve pendingSession (.success (some "a red apple"))).loading
        = false ∧
    (analyzeResolve pendingSession (.success (some "a red apple"))).analysis
        ≠ "" ∧
    (analyzeResolve pendingSession (.success (some "a red apple"))).error
        = none := by
  have hreach : Reachable (pendingSession, true) :=
    Relation.ReflTransGen.tail
      (Relation.ReflTransGen.tail Relation.ReflTransGen.refl
        (Step.select initialSession false (some sampleImage)))
      (Step.startAnalyze sessionWithImage sampleImage rfl)
  exact session_invariant.1 pendingSession hreach (some "a red apple")

/-- C5: `reset` clears `image`, `analysis` and `error` from any prior
state, and is idempotent. -/
theorem reset_empties_session (s : Session) :
    (reset s).image = none ∧ (reset s).analysis = "" ∧
    (reset s).error = none ∧ reset (reset s) = reset s := by
  simp [reset]

/-- C6: completing `handleImageUpload` sets `image` to the encoded
string and unconditionally clears `analysis` and `error`, whatever the
prior state. -/
theorem select_image_clears_results (s : Session) (d : String) :
    (onFileRead s (some d)).image = some d ∧
    (onFileRead s (some d)).analysis = "" ∧
    (onFileRead s (some d)).error = none := by
  simp [onFileRead]

/-- C7: a successful gateway response with empty or absent text sets
`analysis` to the fixed fallback phrase (which is non-empty) and leaves
`error` unset. -/
theorem empty_response_gets_fallback (s : Session) (img : String)
    (h : s.image = some img) (t : Option String)
    (ht : t = none ∨ t = some "") :
    (analyzeImage s (.success t)).1.analysis = fallbackPhrase ∧
    (analyzeImage s (.success t)).1.analysis ≠ "" ∧
    (analyzeImage s (.success t)).1.error = none := by
  have hfb : fallbackPhrase ≠ "" := by decide
  rcases ht with rfl | rfl <;>
    simp [analyzeImage, h, analyzeResolve, analyzeStart, textOrElse, hfb]

theorem empty_response_gets_fallback_witness :
    sessionWithImage.image = some sampleImage ∧
    ((none : Option String) = none ∨ (none : Option String) = some "") ∧
    ((analyzeImage sessionWithImage (.success none)).1.analysis
        = fallbackPhrase ∧
     (analyzeImage sessionWithImage (.success none)).1.analysis ≠ "" ∧
     (analyzeImage sessionWithImage (.success none)).1.error = none) :=
  ⟨rfl, Or.inl rfl,
    empty_response_gets_fallback sessionWithImage sampleImage rfl none
      (Or.inl rfl)⟩

/-- C8: with `image` set (a data URI, so exactly one comma), the
invocation issues exactly one request, whose data part is the image
string without its encoding-scheme part (everything after the first
comma), whose MIME declaration is the hardcoded JPEG type, whose model
identifier is the fixed constant, and whose text part is the fixed
instruction. -/
theorem submission_request_payload (s : Session) (img : String)
    (h : s.image = some img) (hcomma : img.data.count ',' = 1)
    (o : GatewayOutcome) :
    (analyzeImage s o).2 =
      [{ model := modelId
         mimeType := jpegMime
         data := some (specStrippedImage img)
         text := instructionText }] := by
  simp only [analyzeImage, h, buildRequest, base64Data, jsSplit]
  rw [List.getElem?_map, splitComma_snd_of_count_one img.data hcomma]
  simp [specStrippedImage]

theorem submission_request_payload_witness :
    sessionWithImage.image = some sampleImage ∧
    sampleImage.data.count ',' = 1 ∧
    (analyzeImage sessionWithImage .failure).2 =
      [{ model := modelId
         mimeType := jpegMime
         data := some (specStrippedImage sampleImage)
         text := instructionText }] :=
  ⟨rfl, by decide,
    submission_request_payload sessionWithImage sampleImage rfl (by decide)
      .failure⟩

/-- C9: when the underlying file read fails, the upload callback leaves
`error` unset: no error state is surfaced. -/
theorem decode_failure_surfaces_no_error (s : Session) :
    (onFileRead s none).error = none := by
  simp [onFileRead]

/-- C10: `reset` never modifies `loading`; only the resolution of the
in-flight request sets it to false. -/
theorem reset_preserves_loading (s : Session) :
    (reset s).loading = s.loading ∧
    ∀ o : GatewayOutcome, (analyzeResolve (reset s) o).loading = false := by
  refine ⟨rfl, fun o => ?_⟩
  cases o <;> simp [reset, analyzeResolve]
